import Mathlib

/-!
Verification development for a terraform-metrics exporter written in Go.
The repository holds two variants of the exporter:
an earlier single-file variant whose plan interpretation lives in
`parseTerraformPlan` (with gauges set through package-level globals), and the
fuller variant whose orchestration lives in `collectMetrics`, with helpers
`parseLogStats` (apply-log statistics), `detectDrift` (refresh-log drift
signal) and `isTerraformRunSuccessful` (outcome classification).

The shallow embedding below mirrors the Go code definition by definition.
File reads are modelled as `Option` values (`none` = the read failed),
`encoding/json.Unmarshal` and RFC3339 parsing are external collaborators and
are passed in as function parameters (`none` = decode/parse error), and
transcripts scanned line by line through `bufio.Scanner` are modelled as
`List String` of lines.
-/

/-- One entry of the plan document's `resource_changes` array.  Mirrors the Go
struct `ResourceChange` (the nested `Change.Actions` field is flattened to
`actions`). -/
structure ResourceChange where
  type : String
  actions : List String
deriving DecidableEq

/-- Mirrors the Go struct `PlanJSON` of the `collectMetrics` variant:
`Timestamp` plus `ResourceChanges`.  (The earlier variant's `PlanJSON` lacks
the timestamp field; its functions below simply never read `timestamp`.) -/
structure PlanJSON where
  timestamp : String
  resourceChanges : List ResourceChange
deriving DecidableEq

/-- The Go helper `contains(slice []string, val string) bool`: linear scan
with early return. -/
def goContains : List String → String → Bool
  | [], _ => false
  | item :: rest, val => if item == val then true else goContains rest val

/-- Pattern `pat` matches at the head of `s`. -/
def leadsWith : List Char → List Char → Bool
  | [], _ => true
  | _ :: _, [] => false
  | p :: ps, c :: cs => p == c && leadsWith ps cs

/-- Pattern `pat` matches at some position of `s`. -/
def occursIn (pat : List Char) : List Char → Bool
  | [] => pat.isEmpty
  | c :: cs => leadsWith pat (c :: cs) || occursIn pat cs

/-- Go `strings.Contains(s, sub)`: `sub` occurs as a contiguous substring of
`s`, modelled on the character lists. -/
def strContains (s sub : String) : Bool :=
  occursIn sub.toList s.toList

/-- Helper for `goFields`: walks the character list accumulating the current
field (in reverse), emitting a field at each maximal non-whitespace run. -/
def fieldsAux : List Char → List Char → List String
  | [], acc => if acc.isEmpty then [] else [String.mk acc.reverse]
  | c :: cs, acc =>
    if c.isWhitespace then
      if acc.isEmpty then fieldsAux cs []
      else String.mk acc.reverse :: fieldsAux cs []
    else fieldsAux cs (c :: acc)

/-- Go `strings.Fields`: split around maximal runs of whitespace, returning
no empty fields. -/
def goFields (s : String) : List String :=
  fieldsAux s.toList []

/-- Helper for `splitOnChar`: walks the characters accumulating the current
piece (in reverse), emitting a piece at each separator and the final piece at
the end. -/
def splitOnCharAux (sep : Char) : List Char → List Char → List String
  | [], acc => [String.mk acc.reverse]
  | c :: cs, acc =>
    if c == sep then String.mk acc.reverse :: splitOnCharAux sep cs []
    else splitOnCharAux sep cs (c :: acc)

/-- Go `strings.Split(s, sep)` for the single-character separators the code
uses (`":"` and `","`): cut `s` at every occurrence of `sep`, keeping empty
pieces. -/
def splitOnChar (s : String) (sep : Char) : List String :=
  splitOnCharAux sep s.toList []

/-- Go `strings.TrimSpace`: drop leading and trailing whitespace. -/
def trimSpace (s : String) : String :=
  String.mk (((s.toList.dropWhile Char.isWhitespace).reverse.dropWhile Char.isWhitespace).reverse)

/-- Value of a nonempty all-digit character list, `none` otherwise. -/
def digitsToNat? (ds : List Char) : Option Nat :=
  if ds.isEmpty then none
  else if ds.all Char.isDigit then
    some (ds.foldl (fun acc c => acc * 10 + (c.toNat - 48)) 0)
  else none

/-- Go `strconv.Atoi`: optional sign followed by at least one digit; `none`
models the error return.  (Go additionally clamps out-of-range 64-bit values;
that case never arises for the log statistics modelled here.) -/
def atoi? (s : String) : Option Int :=
  match s.toList with
  | '+' :: ds => (digitsToNat? ds).map (fun n => (n : Int))
  | '-' :: ds => (digitsToNat? ds).map (fun n => -(n : Int))
  | ds => (digitsToNat? ds).map (fun n => (n : Int))

/-- The four named return values of Go `parseLogStats`, all initialised to
zero. -/
structure ApplyStats where
  added : Int
  changed : Int
  destroyed : Int
  imported : Int
deriving DecidableEq

/-- All-zero apply statistics, the initial state of `parseLogStats`. -/
def ApplyStats.zero : ApplyStats := ⟨0, 0, 0, 0⟩

/-- The inner loop body of Go `parseLogStats` for one comma-separated
segment `stat`: `parts := strings.Fields(strings.TrimSpace(stat))`, skip when
fewer than two parts, otherwise `count, _ := strconv.Atoi(parts[0])` (the
error is discarded, leaving `count = 0`) and a `switch` on `parts[1]`
assigning `count` into the matching bucket. -/
def processStat (st : ApplyStats) (stat : String) : ApplyStats :=
  match goFields (trimSpace stat) with
  | p0 :: p1 :: _ =>
    let count : Int := (atoi? p0).getD 0
    if p1 = "added" then { st with added := count }
    else if p1 = "changed" then { st with changed := count }
    else if p1 = "destroyed" then { st with destroyed := count }
    else if p1 = "imported" then { st with imported := count }
    else st
  | _ => st

/-- The outer loop body of Go `parseLogStats` for one transcript line: lines
without the `"Apply complete!"` marker are skipped; on a marker line the text
is split at `":"`, skipped when that yields fewer than two fields, and the
second field is split at `","` into segments fed to `processStat`. -/
def processLine (st : ApplyStats) (line : String) : ApplyStats :=
  if strContains line "Apply complete!" then
    match splitOnChar line ':' with
    | _ :: f1 :: _ => (splitOnChar f1 ',').foldl processStat st
    | _ => st
  else st

/-- Go `parseLogStats(path)`: `none` models `os.Open` failing (the function
returns the zero counts); otherwise the transcript lines are scanned in
order. -/
def parseLogStats (readRes : Option (List String)) : ApplyStats :=
  match readRes with
  | none => ApplyStats.zero
  | some lines => lines.foldl processLine ApplyStats.zero

/-- The authoritative no-drift phrase checked first by `detectDrift`. -/
def noChangesPhrase : String :=
  "No changes. Your infrastructure still matches the configuration."

/-- The conservative fallback marker checked second by `detectDrift`. -/
def refreshingMarker : String := "Refreshing state..."

/-- Go `detectDrift(logPath)`: `none` models `os.ReadFile` failing (a warning
is printed and `0` returned); otherwise the full text is tested for the
no-changes phrase (authoritative `0`), then for the refreshing marker
(fallback `1`), else `0`.  The Go return type `float64` only ever carries
`0` or `1`, modelled as `Int`. -/
def detectDrift (readRes : Option String) : Int :=
  match readRes with
  | none => 0
  | some logContent =>
    if strContains logContent noChangesPhrase then 0
    else if strContains logContent refreshingMarker then 1
    else 0

/-- The line-scanning loop of Go `isTerraformRunSuccessful`: return `false`
at the first line containing `"Error:"` or `"│ Error"`, `true` when the
transcript is exhausted. -/
def scanForError : List String → Bool
  | [] => true
  | line :: rest =>
    if strContains line "Error:" || strContains line "│ Error" then false
    else scanForError rest

/-- Go `isTerraformRunSuccessful(logPath)`: `none` models `os.Open` failing
(classified as failure); otherwise the lines are scanned for error
markers. -/
def isTerraformRunSuccessful (readRes : Option (List String)) : Bool :=
  match readRes with
  | none => false
  | some lines => scanForError lines

/-- The drift heuristic of the earlier variant's `parseTerraformPlan` loop:
`len(actions) == 1 && actions[0] == "update"`. -/
def isSingleUpdate (actions : List String) : Bool :=
  match actions with
  | [a] => a == "update"
  | _ => false

/-- Loop state of the earlier variant's `parseTerraformPlan`: `total, added,
changed, destroyed := 0, 0, 0, 0` and `drift := 0`. -/
structure PlanTally1 where
  total : Nat
  added : Nat
  changed : Nat
  destroyed : Nat
  drift : Nat
deriving DecidableEq

/-- One iteration of the earlier variant's `parseTerraformPlan` loop over
`plan.ResourceChanges`. -/
def tallyStep1 (t : PlanTally1) (rc : ResourceChange) : PlanTally1 :=
  { total := t.total + 1
    added := if goContains rc.actions "create" then t.added + 1 else t.added
    changed := if goContains rc.actions "update" then t.changed + 1 else t.changed
    destroyed := if goContains rc.actions "delete" then t.destroyed + 1 else t.destroyed
    drift := if isSingleUpdate rc.actions then t.drift + 1 else t.drift }

/-- The full tally loop of the earlier variant's `parseTerraformPlan`. -/
def tallyPlan1 (changes : List ResourceChange) : PlanTally1 :=
  changes.foldl tallyStep1 ⟨0, 0, 0, 0, 0⟩

/-- Go `min(a, b)` of the earlier variant (`if a < b { return a }; return b`),
used as `min(1, drift)` for the drift gauge. -/
def goMin (a b : Nat) : Nat :=
  if a < b then a else b

/-- Value the earlier variant's `parseTerraformPlan` writes into the
`terraform_drift_detected` gauge: `min(1, drift)` over the tallied drift
counter. -/
def driftGauge1 (changes : List ResourceChange) : Nat :=
  goMin 1 (tallyPlan1 changes).drift

/-- Plan-reading error of the earlier variant's `parseTerraformPlan`: the
`os.ReadFile` error and the `json.Unmarshal` error are distinct error values
returned to `main`. -/
inductive PlanError where
  | readError
  | decodeError
deriving DecidableEq

/-- The earlier variant's `parseTerraformPlan(path)`: a failed read returns
the read error, a failed unmarshal returns the decode error, otherwise the
resource changes are tallied and the gauges set (modelled by returning the
tally).  `unmarshal` stands for `encoding/json.Unmarshal` into `PlanJSON`. -/
def parseTerraformPlan (readRes : Option String)
    (unmarshal : String → Option PlanJSON) : Except PlanError PlanTally1 :=
  match readRes with
  | none => .error .readError
  | some data =>
    match unmarshal data with
    | none => .error .decodeError
    | some plan => .ok (tallyPlan1 plan.resourceChanges)

/-- Loop state of the `collectMetrics` tally: `total, toAdd, toChange,
toDestroy, toImport := 0, 0, 0, 0, 0`. -/
structure PlanTally2 where
  total : Nat
  toAdd : Nat
  toChange : Nat
  toDestroy : Nat
  toImport : Nat
deriving DecidableEq

/-- One iteration of the `collectMetrics` loop over
`plan.ResourceChanges`. -/
def tallyStep2 (t : PlanTally2) (rc : ResourceChange) : PlanTally2 :=
  { total := t.total + 1
    toAdd := if goContains rc.actions "create" then t.toAdd + 1 else t.toAdd
    toChange := if goContains rc.actions "update" then t.toChange + 1 else t.toChange
    toDestroy := if goContains rc.actions "delete" then t.toDestroy + 1 else t.toDestroy
    toImport := if goContains rc.actions "import" then t.toImport + 1 else t.toImport }

/-- The full tally loop of `collectMetrics`. -/
def tallyPlan2 (changes : List ResourceChange) : PlanTally2 :=
  changes.foldl tallyStep2 ⟨0, 0, 0, 0, 0⟩

/-- The zero value Go leaves in `var plan PlanJSON` when nothing is decoded
into it. -/
def emptyPlan : PlanJSON := { timestamp := "", resourceChanges := [] }

/-- The plan-loading prelude of `collectMetrics`: `planFile, err :=
os.ReadFile(planPath); if err == nil { json.Unmarshal(planFile, &plan) }`.
Both a read error and an unmarshal error leave `plan` at its zero value and
are otherwise ignored (`json.Unmarshal`'s error result is discarded). -/
def loadPlan (readRes : Option String)
    (unmarshal : String → Option PlanJSON) : PlanJSON :=
  match readRes with
  | none => emptyPlan
  | some data => (unmarshal data).getD emptyPlan

/-- The inputs `collectMetrics` draws from the environment and the
filesystem, plus its external collaborators.  `planRead`, `applyRead`,
`refreshRead` and `planLines` model the outcomes of the file reads
(`planLines` is the plan file re-read line-wise when it serves as the result
log); `unmarshal` models `encoding/json.Unmarshal`; `parseRFC3339` models
`time.Parse(time.RFC3339, ·).Unix()`; `execDuration` and `wallClock` model
the two clock reads. -/
structure RunConfig where
  planRead : Option String
  unmarshal : String → Option PlanJSON
  applyLogPath : String
  applyRead : Option (List String)
  refreshRead : Option String
  planLines : Option (List String)
  execDuration : Int
  wallClock : Int
  parseRFC3339 : String → Option Int

/-- The gauge assembly of `collectMetrics`, as the ordered sequence of
`makeGauge(name, help, value)` insertions (help strings elided): the eight
common gauges, then the four apply gauges when an apply-log path is
configured, then the single result gauge computed from whichever log is the
latest stage reached. -/
def collectGauges (cfg : RunConfig) : List (String × Int) :=
  let drift := detectDrift cfg.refreshRead
  let plan := loadPlan cfg.planRead cfg.unmarshal
  let t := tallyPlan2 plan.resourceChanges
  let timestamp : Int :=
    if plan.timestamp ≠ "" then (cfg.parseRFC3339 plan.timestamp).getD cfg.wallClock
    else cfg.wallClock
  let base : List (String × Int) :=
    [("terraform_execution_duration_seconds", cfg.execDuration),
     ("terraform_timestamp", timestamp),
     ("terraform_drift_detected", drift),
     ("terraform_resources_total", (t.total : Int)),
     ("terraform_to_add", (t.toAdd : Int)),
     ("terraform_to_change", (t.toChange : Int)),
     ("terraform_to_destroy", (t.toDestroy : Int)),
     ("terraform_to_import", (t.toImport : Int))]
  let applyGauges : List (String × Int) :=
    if cfg.applyLogPath ≠ "" then
      let s := parseLogStats cfg.applyRead
      [("terraform_added", s.added),
       ("terraform_changed", s.changed),
       ("terraform_destroyed", s.destroyed),
       ("terraform_imported", s.imported)]
    else []
  let resultRead := if cfg.applyLogPath ≠ "" then cfg.applyRead else cfg.planLines
  let result : Int := if isTerraformRunSuccessful resultRead then 1 else 0
  base ++ applyGauges ++ [("terraform_result", result)]

/-- The four keywords recognised by the `switch parts[1]` of
`parseLogStats`. -/
def knownKeywords : List String := ["added", "changed", "destroyed", "imported"]

/-- Whether the `switch` of `parseLogStats` recognises the keyword token of a
segment: the second whitespace-split field exists and is one of the four
known keywords (compared by exact string equality). -/
def statKeywordKnown (stat : String) : Bool :=
  match (goFields (trimSpace stat))[1]? with
  | some k => knownKeywords.contains k
  | none => false

/-- A plan document whose single resource change carries the lone `update`
action, so the single-update drift heuristic fires on it. -/
def singleUpdatePlan : PlanJSON :=
  { timestamp := "", resourceChanges := [{ type := "aws_instance", actions := ["update"] }] }

/-- An unmarshaller that succeeds exactly on the byte payload
`"plan-bytes"`, decoding it to `singleUpdatePlan`. -/
def unmarshalSingleUpdate : String → Option PlanJSON :=
  fun s => if s = "plan-bytes" then some singleUpdatePlan else none

/-- A run whose plan decodes to `singleUpdatePlan` (plan-level drift signal
fires) while the refresh log carries the authoritative no-changes phrase
(refresh-level drift signal is 0).  No apply log is configured. -/
def runSingleUpdateNoRefreshDrift : RunConfig :=
  { planRead := some "plan-bytes"
    unmarshal := unmarshalSingleUpdate
    applyLogPath := ""
    applyRead := none
    refreshRead := some "No changes. Your infrastructure still matches the configuration."
    planLines := some []
    execDuration := 0
    wallClock := 0
    parseRFC3339 := fun _ => none }

/-- An unmarshaller that fails on the payload `"this is not json"` and
succeeds (with the empty document) on everything else, standing for
`json.Unmarshal` hitting malformed JSON. -/
def unmarshalRejecting : String → Option PlanJSON :=
  fun s => if s = "this is not json" then none else some emptyPlan

/-- A run whose plan file is absent (`os.ReadFile` fails). -/
def runPlanAbsent : RunConfig :=
  { planRead := none
    unmarshal := unmarshalRejecting
    applyLogPath := ""
    applyRead := none
    refreshRead := none
    planLines := some []
    execDuration := 0
    wallClock := 0
    parseRFC3339 := fun _ => none }

/-- The same run as `runPlanAbsent` except that the plan file exists and
holds malformed JSON. -/
def runPlanMalformed : RunConfig :=
  { runPlanAbsent with planRead := some "this is not json" }

/-! Helper lemmas about the embedded Go primitives. -/

/-- The Go `contains` helper decides list membership. -/
theorem goContains_iff (l : List String) (v : String) : goContains l v = true ↔ v ∈ l := by
  induction l with
  | nil => simp [goContains]
  | cons a rest ih =>
    by_cases h : a = v
    · simp [goContains, h]
    · simp [goContains, h, ih]
      exact fun hv => absurd hv.symm h

/-- The single-update drift heuristic fires exactly on the action list
`["update"]`. -/
theorem isSingleUpdate_iff (a : List String) : isSingleUpdate a = true ↔ a = ["update"] := by
  match a with
  | [] => simp [isSingleUpdate]
  | [x] => simp [isSingleUpdate]
  | x :: y :: rest => simp [isSingleUpdate]

/-- The Go `min(1, ·)` clamp is 1 exactly when the clamped counter is
positive. -/
theorem goMin_one_eq_one_iff (n : Nat) : goMin 1 n = 1 ↔ 0 < n := by
  unfold goMin; split <;> omega

/-- The drift component of the `parseTerraformPlan` fold counts the records
on which the single-update heuristic fires. -/
theorem foldl_tallyStep1_drift (changes : List ResourceChange) (t : PlanTally1) :
    (changes.foldl tallyStep1 t).drift =
      t.drift + changes.countP (fun rc => isSingleUpdate rc.actions) := by
  induction changes generalizing t with
  | nil => simp
  | cons rc rest ih =>
    rw [List.foldl_cons, ih, List.countP_cons]
    unfold tallyStep1
    cases h : isSingleUpdate rc.actions <;> simp [h]
    all_goals omega

/-- The error scan of `isTerraformRunSuccessful` rejects a transcript
exactly when some line carries one of the two error markers. -/
theorem scanForError_eq_false_iff (lines : List String) :
    scanForError lines = false ↔
      ∃ l ∈ lines, (strContains l "Error:" = true ∨ strContains l "│ Error" = true) := by
  induction lines with
  | nil => simp [scanForError]
  | cons line rest ih =>
    by_cases h1 : strContains line "Error:" = true
    · simp [scanForError, h1]
    · by_cases h2 : strContains line "│ Error" = true
      · simp [scanForError, h1, h2]
      · simp [scanForError, h1, h2, ih]

/-- A segment whose keyword token is not recognised by the `switch` of
`parseLogStats` leaves every count bucket unchanged. -/
theorem processStat_of_unknown_keyword (st : ApplyStats) (stat : String)
    (h : statKeywordKnown stat = false) : processStat st stat = st := by
  unfold statKeywordKnown at h
  cases hgf : goFields (trimSpace stat) with
  | nil => simp [processStat, hgf]
  | cons p0 rest =>
    cases rest with
    | nil => simp [processStat, hgf]
    | cons p1 rest2 =>
      rw [hgf] at h
      simp [knownKeywords] at h
      simp [processStat, hgf, h.1, h.2.1, h.2.2.1, h.2.2.2]

/-! Claim theorems. -/

/-- C1 (counterexample): on the run `runSingleUpdateNoRefreshDrift` the
plan-derived drift signal fires (`min(1, drift) = 1` over the decoded
document) and the refresh-derived signal is 0, so the claimed logical OR is
1; yet the published `terraform_drift_detected` gauge is 0 — `collectMetrics`
feeds only `detectDrift`'s result into the gauge. -/
theorem drift_gauge_not_or_of_signals_cex :
    driftGauge1 (loadPlan runSingleUpdateNoRefreshDrift.planRead
      runSingleUpdateNoRefreshDrift.unmarshal).resourceChanges = 1 ∧
    detectDrift runSingleUpdateNoRefreshDrift.refreshRead = 0 ∧
    List.lookup "terraform_drift_detected" (collectGauges runSingleUpdateNoRefreshDrift) =
      some 0 := by
  refine ⟨rfl, rfl, rfl⟩

/-- C1 (amended): the `terraform_drift_detected` gauge published by
`collectMetrics` equals exactly the refresh-derived signal
(`detectDrift` on the refresh log read); the plan-derived single-update
drift signal does not contribute. -/
theorem drift_gauge_eq_refresh_signal (cfg : RunConfig) :
    List.lookup "terraform_drift_detected" (collectGauges cfg) =
      some (detectDrift cfg.refreshRead) := rfl

/-- C2 (counterexample): the segment `" x added"` has a non-integer leading
token (`strconv.Atoi` fails), yet processing it is not a skip: the `added`
bucket is overwritten with 0, changing its value from 2 to 0.  On a whole
transcript the earlier parsed value 2 is lost the same way. -/
theorem nonint_token_overwrites_bucket_cex :
    atoi? "x" = none ∧
    processStat ⟨2, 1, 0, 0⟩ " x added" = ⟨0, 1, 0, 0⟩ ∧
    parseLogStats (some ["Apply complete! Resources: 2 added, x added"]) = ⟨0, 0, 0, 0⟩ := by
  refine ⟨rfl, by decide, by decide⟩

/-- C2 (amended): a segment whose keyword token is outside
{added, changed, destroyed, imported} (or that has fewer than two
whitespace-split fields) is silently skipped — no count bucket changes and
no error is raised; but a segment with a known keyword and a non-integer
leading token instead assigns 0 to that bucket, because the `Atoi` error is
discarded. -/
theorem unknown_keyword_segment_skipped (st : ApplyStats) (stat : String)
    (h : statKeywordKnown stat = false) : processStat st stat = st :=
  processStat_of_unknown_keyword st stat h

/-- C2 (witness): the segment `"9 frobbed"` has an unknown keyword and is
skipped. -/
theorem unknown_keyword_segment_skipped_w :
    statKeywordKnown "9 frobbed" = false ∧
    processStat ⟨1, 2, 3, 4⟩ "9 frobbed" = ⟨1, 2, 3, 4⟩ :=
  ⟨by decide, unknown_keyword_segment_skipped ⟨1, 2, 3, 4⟩ "9 frobbed" (by decide)⟩

/-- C3 (counterexample): `collectMetrics` does not surface a decode error:
with an unmarshaller that rejects the payload `"this is not json"`, the run
with that malformed plan file produces exactly the same gauges as the run
whose plan file is absent — the two failure modes are indistinguishable and
no error reaches the caller (the plan degrades to zero resourceChanges in
both). -/
theorem decode_error_not_surfaced_cex :
    unmarshalRejecting "this is not json" = none ∧
    loadPlan (some "this is not json") unmarshalRejecting = emptyPlan ∧
    collectGauges runPlanMalformed = collectGauges runPlanAbsent := by
  refine ⟨rfl, rfl, rfl⟩

/-- C3 (amended): in `collectMetrics` a missing plan file and a plan file
whose JSON fails to decode are tolerated identically: either way the
document degrades to the zero value with no resourceChanges, and neither
error is surfaced to the caller (the `json.Unmarshal` error is discarded). -/
theorem plan_failure_modes_degrade_to_empty (unmarshal : String → Option PlanJSON)
    (data : String) (h : unmarshal data = none) :
    loadPlan (some data) unmarshal = emptyPlan ∧ loadPlan none unmarshal = emptyPlan := by
  constructor
  · simp [loadPlan, h]
  · rfl

/-- C3 (witness): instantiated at the rejecting unmarshaller and the
malformed payload. -/
theorem plan_failure_modes_degrade_to_empty_w :
    unmarshalRejecting "this is not json" = none ∧
    (loadPlan (some "this is not json") unmarshalRejecting = emptyPlan ∧
      loadPlan none unmarshalRejecting = emptyPlan) :=
  ⟨rfl, plan_failure_modes_degrade_to_empty unmarshalRejecting "this is not json" rfl⟩

/-- C4: on a transcript holding the line
`"Apply complete! Resources: 2 added, 1 changed, 0 destroyed."` the apply-log
interpreter returns added=2, changed=1, destroyed=0, imported=0. -/
theorem apply_log_example_counts :
    parseLogStats (some ["Apply complete! Resources: 2 added, 1 changed, 0 destroyed."]) =
      { added := 2, changed := 1, destroyed := 0, imported := 0 } := by
  decide

/-- C5: one tally step routes a record into the add/change/destroy/import
buckets exactly by membership of create/update/delete/import in its action
list; a `["delete", "create"]` record increments both add and destroy and
does not increment the drift counter. -/
theorem tally_buckets_by_membership (t : PlanTally2) (d : PlanTally1) (rc : ResourceChange) :
    ((tallyStep2 t rc).toAdd = (if "create" ∈ rc.actions then t.toAdd + 1 else t.toAdd)) ∧
    ((tallyStep2 t rc).toChange = (if "update" ∈ rc.actions then t.toChange + 1 else t.toChange)) ∧
    ((tallyStep2 t rc).toDestroy = (if "delete" ∈ rc.actions then t.toDestroy + 1 else t.toDestroy)) ∧
    ((tallyStep2 t rc).toImport = (if "import" ∈ rc.actions then t.toImport + 1 else t.toImport)) ∧
    ((tallyStep2 t { type := rc.type, actions := ["delete", "create"] }).toAdd = t.toAdd + 1) ∧
    ((tallyStep2 t { type := rc.type, actions := ["delete", "create"] }).toDestroy = t.toDestroy + 1) ∧
    ((tallyStep1 d { type := rc.type, actions := ["delete", "create"] }).drift = d.drift) := by
  refine ⟨?_, ?_, ?_, ?_, ?_, ?_, ?_⟩ <;>
    simp [tallyStep2, tallyStep1, goContains_iff, isSingleUpdate, goContains]

/-- C6: the drift gauge of `parseTerraformPlan` (`min(1, drift)` over the
single-update counter) is 1 exactly when some record's action sequence is
the one-element sequence `["update"]`, and it is 0 on a document with no
resource changes. -/
theorem plan_drift_gauge_iff (changes : List ResourceChange) :
    (driftGauge1 changes = 1 ↔ ∃ rc ∈ changes, rc.actions = ["update"]) ∧
    driftGauge1 [] = 0 := by
  constructor
  · unfold driftGauge1 tallyPlan1
    rw [foldl_tallyStep1_drift, goMin_one_eq_one_iff]
    simp [List.countP_pos_iff, isSingleUpdate_iff]
  · rfl

/-- C7: the refresh-log interpreter returns drift 0 for any text containing
the exact no-changes phrase (even when the refreshing marker also appears),
drift 1 for any text containing `"Refreshing state..."` but not that phrase,
drift 0 for text containing neither, and drift 0 (non-fatally) when the file
read fails. -/
theorem refresh_drift_classification (text : String) :
    (detectDrift (some text) = 1 ↔
      (strContains text noChangesPhrase = false ∧ strContains text refreshingMarker = true)) ∧
    (detectDrift (some text) = 0 ↔
      (strContains text noChangesPhrase = true ∨ strContains text refreshingMarker = false)) ∧
    detectDrift none = 0 := by
  cases h1 : strContains text noChangesPhrase <;> cases h2 : strContains text refreshingMarker <;>
    simp [detectDrift, h1, h2]

/-- C8: the outcome classifier returns success = false exactly when some
transcript line contains `"Error:"` or `"│ Error"` (so it is true for a
readable transcript with no such line), and returns false when the
transcript file cannot be opened. -/
theorem outcome_classification (lines : List String) :
    (isTerraformRunSuccessful (some lines) = false ↔
      ∃ l ∈ lines, (strContains l "Error:" = true ∨ strContains l "│ Error" = true)) ∧
    isTerraformRunSuccessful none = false :=
  ⟨scanForError_eq_false_iff lines, rfl⟩

/-- C9: the gauge names `collectMetrics` writes into the metric set are
pairwise distinct on every run — whether or not an apply log is configured,
no name is written twice. -/
theorem metric_names_unique (cfg : RunConfig) :
    ((collectGauges cfg).map Prod.fst).Nodup := by
  by_cases h : cfg.applyLogPath = "" <;> simp [collectGauges, h]

/-- C10: the `switch` of `parseLogStats` compares the keyword token by exact
string equality, so a segment whose second whitespace-split field is the
period-terminated `"destroyed."` is routed to no bucket and leaves the
counts unchanged; in particular the upstream-style line
`"Apply complete! Resources: 41 destroyed."` leaves every count at 0. -/
theorem trailing_punct_keyword_not_routed (st : ApplyStats) (stat : String)
    (h : (goFields (trimSpace stat))[1]? = some "destroyed.") :
    processStat st stat = st ∧
    parseLogStats (some ["Apply complete! Resources: 41 destroyed."]) = ApplyStats.zero := by
  constructor
  · apply processStat_of_unknown_keyword
    unfold statKeywordKnown
    rw [h]
    decide
  · decide

/-- C10 (witness): the segment `" 0 destroyed."` has keyword token
`"destroyed."` and is not routed. -/
theorem trailing_punct_keyword_not_routed_w :
    (goFields (trimSpace " 0 destroyed."))[1]? = some "destroyed." ∧
    (processStat ⟨5, 6, 7, 8⟩ " 0 destroyed." = ⟨5, 6, 7, 8⟩ ∧
      parseLogStats (some ["Apply complete! Resources: 41 destroyed."]) = ApplyStats.zero) :=
  ⟨by decide, trailing_punct_keyword_not_routed ⟨5, 6, 7, 8⟩ " 0 destroyed." (by decide)⟩
